import Mathlib

/-!
Verification of the rv6 userland syscall shim layer:
`userland/include/uapi/syscall.h` (the syscall-number constant and the
arity shims over the external arity-6 trap primitive) and
`userland/lib/write.c` (the typed `write` wrapper).

The target is rv64: a C `long` is a 64-bit two's-complement signed word
and an `int` is a 32-bit two's-complement signed word.  Words are
embedded by their mathematical value (an `Int`), with the implicit C
casts of `write.c` made explicit as conversion functions.

The arity-6 primitive `__syscall6` is only declared in the fragment (its
per-architecture implementation performs the actual trap), so it is kept
abstract: a `Kernel` is the kernel's response function to a trap call.
Every operation is embedded as returning both its result word and the
list of trap calls it issues, so that claims about how often and with
which argument words the primitive is invoked are directly statable.
-/

namespace Rv6

/-- A machine word: the value of a C `long` on the rv64 target, i.e. a
64-bit two's-complement signed integer, represented by its value. -/
abbrev Word := Int

/-- One invocation of the architecture-specific trap primitive: the
syscall number and the six argument words handed to the kernel. -/
structure TrapCall where
  n : Word
  a0 : Word
  a1 : Word
  a2 : Word
  a3 : Word
  a4 : Word
  a5 : Word
  deriving DecidableEq, Repr

/-- The behavior of the kernel behind the trap: the result word returned
for a given trap call.  The fragment only declares the primitive
(`long __syscall6(long n, long a0, ..., long a5);`), so the kernel side
is abstract. -/
abbrev Kernel := TrapCall → Word

/-- `long __syscall6(long n, long a0, ..., long a5)`: the raw trap.
Invokes the abstract kernel once; the result is the kernel's result word
paired with the trace of trap calls issued (exactly this one). -/
def __syscall6 (k : Kernel) (n a0 a1 a2 a3 a4 a5 : Word) : Word × List TrapCall :=
  (k ⟨n, a0, a1, a2, a3, a4, a5⟩, [⟨n, a0, a1, a2, a3, a4, a5⟩])

/-- `static inline long __syscall0(long n)`:
`return __syscall6(n, 0, 0, 0, 0, 0, 0);` -/
def __syscall0 (k : Kernel) (n : Word) : Word × List TrapCall :=
  __syscall6 k n 0 0 0 0 0 0

/-- `static inline long __syscall1(long n, long a0)`:
`return __syscall6(n, a0, 0, 0, 0, 0, 0);` -/
def __syscall1 (k : Kernel) (n a0 : Word) : Word × List TrapCall :=
  __syscall6 k n a0 0 0 0 0 0

/-- `static inline long __syscall2(long n, long a0, long a1)`:
`return __syscall6(n, a0, a1, 0, 0, 0, 0);` -/
def __syscall2 (k : Kernel) (n a0 a1 : Word) : Word × List TrapCall :=
  __syscall6 k n a0 a1 0 0 0 0

/-- `static inline long __syscall3(long n, long a0, long a1, long a2)`:
`return __syscall6(n, a0, a1, a2, 0, 0, 0);` -/
def __syscall3 (k : Kernel) (n a0 a1 a2 : Word) : Word × List TrapCall :=
  __syscall6 k n a0 a1 a2 0 0 0

/-- `static inline long __syscall4(long n, long a0, long a1, long a2, long a3)`:
`return __syscall6(n, a0, a1, a2, a3, 0, 0);` -/
def __syscall4 (k : Kernel) (n a0 a1 a2 a3 : Word) : Word × List TrapCall :=
  __syscall6 k n a0 a1 a2 a3 0 0

/-- `static inline long __syscall5(long n, long a0, long a1, long a2, long a3, long a4)`:
`return __syscall6(n, a0, a1, a2, a3, a4, 0);` -/
def __syscall5 (k : Kernel) (n a0 a1 a2 a3 a4 : Word) : Word × List TrapCall :=
  __syscall6 k n a0 a1 a2 a3 a4 0

/-- The syscall-number constant for write, `__NR_write`, defined to `0`
in `uapi/syscall.h`. -/
def __NR_write : Word := 0

/-- Two's-complement reinterpretation at 32 bits: the signed value whose
32-bit pattern agrees with `x` modulo `2 ^ 32`. -/
def wrap32 (x : Int) : Int := (x + 2 ^ 31) % 2 ^ 32 - 2 ^ 31

/-- Two's-complement reinterpretation at 64 bits: the signed value whose
64-bit pattern agrees with `x` modulo `2 ^ 64`. -/
def wrap64 (x : Int) : Int := (x + 2 ^ 63) % 2 ^ 64 - 2 ^ 63

/-- The cast `(long)fd` in `write.c`: the `int` value, held as a 32-bit
two's-complement register, sign-extended to the 64-bit word; its value
is that of its 32-bit pattern. -/
def longOfInt (x : Int) : Word := wrap32 x

/-- The cast `(long)buf` in `write.c`: the buffer address (an unsigned
64-bit quantity) reinterpreted as the signed word. -/
def longOfPtr (p : Nat) : Word := wrap64 (p : Int)

/-- The cast `(long)count` in `write.c`: the `unsigned long` count
reinterpreted as the signed word. -/
def longOfULong (c : Nat) : Word := wrap64 (c : Int)

/-- `long write(int fd, const void *buf, unsigned long count)` from
`write.c`: `return __syscall3(__NR_write, (long)fd, (long)buf, (long)count);`
The buffer is its address. -/
def write (k : Kernel) (fd : Int) (buf : Nat) (count : Nat) : Word × List TrapCall :=
  __syscall3 k __NR_write (longOfInt fd) (longOfPtr buf) (longOfULong count)

/-- Spec-side description, for the refinement claim: the result word of
the arity-6 primitive for the zero-padded call built from a K-element
argument list, the unused trailing slots filled with zero. -/
def invokePaddedSpec (k : Kernel) (n : Word) (args : List Word) : Word :=
  (__syscall6 k n (args.getD 0 0) (args.getD 1 0) (args.getD 2 0)
      (args.getD 3 0) (args.getD 4 0) (args.getD 5 0)).1

/-- A concrete kernel that answers with the syscall number, used to
observe what reaches the primitive. -/
def kernelN : Kernel := fun c => c.n

/-- A concrete kernel that answers with argument slot 0. -/
def kernelA0 : Kernel := fun c => c.a0

/-- A concrete kernel that answers with argument slot 2. -/
def kernelA2 : Kernel := fun c => c.a2

/-- On the unsigned 64-bit range, two's-complement reinterpretation is
the identity below the sign bit and subtracts `2 ^ 64` at or above it. -/
theorem wrap64_cases (x : Int) (h0 : 0 ≤ x) (h : x < 2 ^ 64) :
    wrap64 x = if x < 2 ^ 63 then x else x - 2 ^ 64 := by
  unfold wrap64; split <;> omega

/-- On the signed 32-bit range, 32-bit reinterpretation is the identity. -/
theorem wrap32_id (x : Int) (h1 : -(2 ^ 31) ≤ x) (h2 : x < 2 ^ 31) :
    wrap32 x = x := by
  unfold wrap32; omega

/-- C1: each shim `__syscallK` invokes the arity-6 primitive with its K
supplied arguments in the first K slots and exactly zero in the
remaining slots; in particular `__syscall0` at 42 equals the primitive
at (42, 0, 0, 0, 0, 0, 0). -/
theorem syscall_shims_zero_pad (k : Kernel) (n a0 a1 a2 a3 a4 : Word) :
    __syscall0 k n = __syscall6 k n 0 0 0 0 0 0 ∧
    __syscall1 k n a0 = __syscall6 k n a0 0 0 0 0 0 ∧
    __syscall2 k n a0 a1 = __syscall6 k n a0 a1 0 0 0 0 ∧
    __syscall3 k n a0 a1 a2 = __syscall6 k n a0 a1 a2 0 0 0 ∧
    __syscall4 k n a0 a1 a2 a3 = __syscall6 k n a0 a1 a2 a3 0 0 ∧
    __syscall5 k n a0 a1 a2 a3 a4 = __syscall6 k n a0 a1 a2 a3 a4 0 ∧
    __syscall0 k 42 = __syscall6 k 42 0 0 0 0 0 0 :=
  ⟨rfl, rfl, rfl, rfl, rfl, rfl, rfl⟩

/-- C3: refinement — the result word of each shim is bit-identical to
the spec-described zero-padded arity-6 primitive call for its argument
list; no shim applies an arity-specific transformation to the result. -/
theorem syscall_shims_refine_padded_spec (k : Kernel) (n a0 a1 a2 a3 a4 : Word) :
    (__syscall0 k n).1 = invokePaddedSpec k n [] ∧
    (__syscall1 k n a0).1 = invokePaddedSpec k n [a0] ∧
    (__syscall2 k n a0 a1).1 = invokePaddedSpec k n [a0, a1] ∧
    (__syscall3 k n a0 a1 a2).1 = invokePaddedSpec k n [a0, a1, a2] ∧
    (__syscall4 k n a0 a1 a2 a3).1 = invokePaddedSpec k n [a0, a1, a2, a3] ∧
    (__syscall5 k n a0 a1 a2 a3 a4).1 = invokePaddedSpec k n [a0, a1, a2, a3, a4] :=
  ⟨rfl, rfl, rfl, rfl, rfl, rfl⟩

/-- C2: `write fd buf count` invokes the arity-3 shim with the write
constant and the three converted argument words, so the primitive
receives (write number, fd widened, buffer address, count reinterpreted,
0, 0, 0), and the kernel's result word is returned unchanged; in the
concrete scenario `write 1 buf 2` the primitive receives
(write number, 1, address, 2, 0, 0, 0). -/
theorem write_marshals_and_returns_raw (k : Kernel) (fd : Int) (buf count : Nat) :
    write k fd buf count
      = __syscall3 k __NR_write (longOfInt fd) (longOfPtr buf) (longOfULong count) ∧
    (write k fd buf count).1
      = k ⟨__NR_write, longOfInt fd, longOfPtr buf, longOfULong count, 0, 0, 0⟩ ∧
    write k 1 buf 2
      = (k ⟨__NR_write, 1, longOfPtr buf, 2, 0, 0, 0⟩,
         [⟨__NR_write, 1, longOfPtr buf, 2, 0, 0, 0⟩]) := by
  have h1 : longOfInt 1 = 1 := by decide
  have h2 : longOfULong 2 = 2 := by decide
  refine ⟨rfl, rfl, ?_⟩
  simp only [write, __syscall3, __syscall6, h1, h2]

/-- C4: the syscall-number constant for write is the non-negative
integer 0, and `write` always passes exactly this constant as the
syscall number of its single trap call. -/
theorem nr_write_zero_and_passed (k : Kernel) (fd : Int) (buf count : Nat) :
    __NR_write = 0 ∧ 0 ≤ __NR_write ∧
    write k fd buf count
      = __syscall3 k __NR_write (longOfInt fd) (longOfPtr buf) (longOfULong count) ∧
    (write k fd buf count).2.map TrapCall.n = [__NR_write] :=
  ⟨rfl, by decide, rfl, rfl⟩

/-- C5: `write` with count 0 still issues exactly one trap call (no
short-circuit) and returns exactly the word the primitive returns for
that call. -/
theorem write_zero_count_still_traps (k : Kernel) (fd : Int) (buf : Nat) :
    (write k fd buf 0).2.length = 1 ∧
    (write k fd buf 0).2 = [⟨__NR_write, longOfInt fd, longOfPtr buf, 0, 0, 0, 0⟩] ∧
    (write k fd buf 0).1 = k ⟨__NR_write, longOfInt fd, longOfPtr buf, 0, 0, 0, 0⟩ := by
  have h0 : longOfULong 0 = 0 := by decide
  refine ⟨rfl, ?_, ?_⟩ <;> simp only [write, __syscall3, __syscall6, h0]

/-- C6: no operation of the layer produces an error of its own — every
`__syscallK` and `write` returns exactly the kernel's result word for
its trap call, with no recovery, retry, or translation. -/
theorem layer_forwards_kernel_result (k : Kernel) (n a0 a1 a2 a3 a4 a5 : Word)
    (fd : Int) (buf count : Nat) :
    (__syscall6 k n a0 a1 a2 a3 a4 a5).1 = k ⟨n, a0, a1, a2, a3, a4, a5⟩ ∧
    (__syscall0 k n).1 = k ⟨n, 0, 0, 0, 0, 0, 0⟩ ∧
    (__syscall1 k n a0).1 = k ⟨n, a0, 0, 0, 0, 0, 0⟩ ∧
    (__syscall2 k n a0 a1).1 = k ⟨n, a0, a1, 0, 0, 0, 0⟩ ∧
    (__syscall3 k n a0 a1 a2).1 = k ⟨n, a0, a1, a2, 0, 0, 0⟩ ∧
    (__syscall4 k n a0 a1 a2 a3).1 = k ⟨n, a0, a1, a2, a3, 0, 0⟩ ∧
    (__syscall5 k n a0 a1 a2 a3 a4).1 = k ⟨n, a0, a1, a2, a3, a4, 0⟩ ∧
    (write k fd buf count).1
      = k ⟨__NR_write, longOfInt fd, longOfPtr buf, longOfULong count, 0, 0, 0⟩ :=
  ⟨rfl, rfl, rfl, rfl, rfl, rfl, rfl, rfl⟩

/-- C7: every call to a shim and every call to `write` invokes the
arity-6 primitive exactly once — its trap-call trace has length one. -/
theorem layer_traps_exactly_once (k : Kernel) (n a0 a1 a2 a3 a4 a5 : Word)
    (fd : Int) (buf count : Nat) :
    (__syscall6 k n a0 a1 a2 a3 a4 a5).2.length = 1 ∧
    (__syscall0 k n).2.length = 1 ∧
    (__syscall1 k n a0).2.length = 1 ∧
    (__syscall2 k n a0 a1).2.length = 1 ∧
    (__syscall3 k n a0 a1 a2).2.length = 1 ∧
    (__syscall4 k n a0 a1 a2 a3).2.length = 1 ∧
    (__syscall5 k n a0 a1 a2 a3 a4).2.length = 1 ∧
    (write k fd buf count).2.length = 1 :=
  ⟨rfl, rfl, rfl, rfl, rfl, rfl, rfl, rfl⟩

/-- C8: the layer holds no shared mutable state — for a fixed kernel,
two calls of the same operation with equal arguments return equal
results; the result is a function of the arguments and the primitive
only. -/
theorem layer_stateless (k : Kernel) (n₁ n₂ a₁ a₂ b₁ b₂ c₁ c₂ d₁ d₂ e₁ e₂ : Word)
    (fd₁ fd₂ : Int) (buf₁ buf₂ count₁ count₂ : Nat)
    (hn : n₁ = n₂) (ha : a₁ = a₂) (hb : b₁ = b₂) (hc : c₁ = c₂)
    (hd : d₁ = d₂) (he : e₁ = e₂)
    (hfd : fd₁ = fd₂) (hbuf : buf₁ = buf₂) (hcount : count₁ = count₂) :
    __syscall0 k n₁ = __syscall0 k n₂ ∧
    __syscall1 k n₁ a₁ = __syscall1 k n₂ a₂ ∧
    __syscall2 k n₁ a₁ b₁ = __syscall2 k n₂ a₂ b₂ ∧
    __syscall3 k n₁ a₁ b₁ c₁ = __syscall3 k n₂ a₂ b₂ c₂ ∧
    __syscall4 k n₁ a₁ b₁ c₁ d₁ = __syscall4 k n₂ a₂ b₂ c₂ d₂ ∧
    __syscall5 k n₁ a₁ b₁ c₁ d₁ e₁ = __syscall5 k n₂ a₂ b₂ c₂ d₂ e₂ ∧
    write k fd₁ buf₁ count₁ = write k fd₂ buf₂ count₂ := by
  subst hn ha hb hc hd he hfd hbuf hcount
  exact ⟨rfl, rfl, rfl, rfl, rfl, rfl, rfl⟩

/-- Witness for C8 at concrete arguments and a concrete kernel. -/
theorem layer_stateless_witness :
    (42 : Word) = 42 ∧ (7 : Int) = 7 ∧ (8 : Nat) = 8 ∧ (9 : Nat) = 9 ∧
    (__syscall0 kernelN 42 = __syscall0 kernelN 42 ∧
     __syscall1 kernelN 42 1 = __syscall1 kernelN 42 1 ∧
     __syscall2 kernelN 42 1 2 = __syscall2 kernelN 42 1 2 ∧
     __syscall3 kernelN 42 1 2 3 = __syscall3 kernelN 42 1 2 3 ∧
     __syscall4 kernelN 42 1 2 3 4 = __syscall4 kernelN 42 1 2 3 4 ∧
     __syscall5 kernelN 42 1 2 3 4 5 = __syscall5 kernelN 42 1 2 3 4 5 ∧
     write kernelN 7 8 9 = write kernelN 7 8 9) :=
  ⟨rfl, rfl, rfl, rfl,
   layer_stateless kernelN 42 42 1 1 2 2 3 3 4 4 5 5 7 7 8 8 9 9
     rfl rfl rfl rfl rfl rfl rfl rfl rfl⟩

/-- C9: the count word passed through `write` is the two's-complement
reinterpretation of the unsigned count — `count` itself below `2 ^ 63`,
`count - 2 ^ 64` at or above — with the bit pattern preserved and no
clamping, truncation, or rejection of large counts. -/
theorem write_count_twos_complement (k : Kernel) (fd : Int) (buf count : Nat)
    (h : count < 2 ^ 64) :
    longOfULong count
      = (if count < 2 ^ 63 then (count : Int) else (count : Int) - 2 ^ 64) ∧
    (write k fd buf count).1
      = k ⟨__NR_write, longOfInt fd, longOfPtr buf,
           if count < 2 ^ 63 then (count : Int) else (count : Int) - 2 ^ 64,
           0, 0, 0⟩ := by
  have hlt : (count : Int) < 2 ^ 64 := by exact_mod_cast h
  have h0 : (0 : Int) ≤ (count : Int) := Int.natCast_nonneg count
  have hm : longOfULong count
      = (if count < 2 ^ 63 then (count : Int) else (count : Int) - 2 ^ 64) := by
    unfold longOfULong
    rw [wrap64_cases (count : Int) h0 hlt]
    by_cases hc : count < 2 ^ 63
    · have hci : (count : Int) < 2 ^ 63 := by exact_mod_cast hc
      rw [if_pos hc, if_pos hci]
    · have hci : ¬ (count : Int) < 2 ^ 63 := by exact_mod_cast hc
      rw [if_neg hc, if_neg hci]
  exact ⟨hm, by rw [show (write k fd buf count).1
      = k ⟨__NR_write, longOfInt fd, longOfPtr buf, longOfULong count, 0, 0, 0⟩
      from rfl, hm]⟩

/-- Witness for C9 at the boundary count `2 ^ 63`, observed through a
kernel answering with argument slot 2: the word that reaches the
primitive is `-(2 ^ 63)`. -/
theorem write_count_twos_complement_witness :
    (2 ^ 63 : Nat) < 2 ^ 64 ∧
    longOfULong (2 ^ 63) = -(2 ^ 63) ∧
    (write kernelA2 0 0 (2 ^ 63)).1 = -(2 ^ 63) := by
  have h := write_count_twos_complement kernelA2 0 0 (2 ^ 63) (by norm_num)
  refine ⟨by norm_num, ?_, ?_⟩
  · rw [h.1]; norm_num
  · rw [h.2]; simp only [kernelA2]; norm_num

/-- C10: `write` validates nothing — an in-range int fd reaches the
primitive with its value preserved by sign extension (so a negative fd
such as -1 passes through as the word -1), and a null buffer passes
through as the word 0. -/
theorem write_no_input_validation (k : Kernel) (fd : Int) (buf count : Nat)
    (h1 : -(2 ^ 31) ≤ fd) (h2 : fd < 2 ^ 31) :
    longOfInt fd = fd ∧
    (write k fd buf count).1
      = k ⟨__NR_write, fd, longOfPtr buf, longOfULong count, 0, 0, 0⟩ ∧
    longOfPtr 0 = 0 := by
  have hi : longOfInt fd = fd := wrap32_id fd h1 h2
  refine ⟨hi, ?_, by decide⟩
  rw [show (write k fd buf count).1
      = k ⟨__NR_write, longOfInt fd, longOfPtr buf, longOfULong count, 0, 0, 0⟩
      from rfl, hi]

/-- Witness for C10 at fd = -1 and a null buffer, observed through a
kernel answering with argument slot 0. -/
theorem write_no_input_validation_witness :
    -(2 ^ 31) ≤ (-1 : Int) ∧ (-1 : Int) < 2 ^ 31 ∧
    (longOfInt (-1) = -1 ∧
     (write kernelA0 (-1) 0 0).1
       = kernelA0 ⟨__NR_write, -1, longOfPtr 0, longOfULong 0, 0, 0, 0⟩ ∧
     longOfPtr 0 = 0) :=
  ⟨by norm_num, by norm_num,
   write_no_input_validation kernelA0 (-1) 0 0 (by norm_num) (by norm_num)⟩

end Rv6
